import Mathlib

/-!
# Turbodoc API — shallow embedding and verification

This file embeds the request handlers of the turbodoc-api Cloudflare worker
(Hono + chanfana + supabase-js) as executable Lean functions over explicit
store states, and proves properties of the batch-operation processor, the
single-resource handlers and the og-image URL resolver.

Conventions of the embedding:

* A store table is a `List` of rows plus a counter used to generate the ids
  the database would assign on insert.  DB-assigned timestamp columns
  (`created_at`, `updated_at`, `synced_at`) are omitted from the row types:
  no handler logic reads them.
* PostgREST semantics used by the handlers, reflected here:
  - `.select().single()` (and `.single()` after `insert`/`update`/`delete`)
    yields the row when the result set has exactly one row, and otherwise an
    error with code `PGRST116` ("JSON object requested, multiple (or no)
    rows returned");
  - a bare `.delete()` (no `.select()`) reports no error when zero rows
    match the filters;
  - an update whose payload is the empty object is a no-op that still
    returns the rows matching the filters.
* JavaScript truthiness: the handlers test strings with `!op.id` and
  `op.title || op.url`, for which the empty string is falsy; the helpers
  `strFalsy`, `jsOrElse`, `jsOrNull` mirror that.
* `HTTPException`s thrown by a handler are rendered by the app-level
  `onError`: status < 500 keeps its message, any status ≥ 500 becomes
  `500 "Internal server error"`.  The embedded handlers return the final
  rendered response.
* Unexpected store/network faults are outside the model: the embedded store
  is total, so the only errors are the ones the store semantics above
  produce.  Response values carry exactly the fields the JSON bodies carry.
-/

namespace Turbodoc

/-- JS falsiness of an optional string: `!x` is true when the value is
absent or the empty string. -/
def strFalsy : Option String → Bool
  | none => true
  | some s => s = ""

/-- JS `x || d` for an optional string `x`: the empty string is falsy and
falls through to the default. -/
def jsOrElse (x : Option String) (d : String) : String :=
  match x with
  | none => d
  | some s => if s = "" then d else s

/-- JS `x || null` for an optional string `x`: the empty string becomes
null. -/
def jsOrNull (x : Option String) : Option String :=
  match x with
  | none => none
  | some s => if s = "" then none else some s

/-- A row of the `notes` table (timestamp columns omitted).  `version` has
database default 1 and is the optimistic-lock counter. -/
structure Note where
  id : String
  user_id : String
  title : String
  content : String
  tags : Option String
  is_favorite : Bool
  version : Nat
deriving Repr, DecidableEq

/-- A row of the `bookmarks` table (timestamp and sync columns omitted).
Unlike `notes`, the bookmarks table has no `version` column: the create
migration declares none and no later migration adds one — the batch
endpoint's zod response schema declares a `version` the store can never
return, and its `.eq("version", ...)` filter targets a nonexistent column.
`is_favorite` is added by the favorites migration with default false. -/
structure Bookmark where
  id : String
  user_id : String
  title : String
  url : String
  tags : Option String
  status : String
  is_favorite : Bool
  time_added : Nat
deriving Repr, DecidableEq

/-- Row filter used by every single-note store access:
`.eq("id", id).eq("user_id", user.id)`. -/
def noteOwned (user id : String) (n : Note) : Bool :=
  n.id == id && n.user_id == user

/-- Row filter used by every single-bookmark store access:
`.eq("id", id).eq("user_id", user.id)`. -/
def bmOwned (user id : String) (b : Bookmark) : Bool :=
  b.id == id && b.user_id == user

/-- Rendered response of a note endpoint returning a row: 200 with data,
409 with message and the current server row, or an error envelope. -/
inductive NoteResp where
  | ok (data : Note)
  | conflict (message : String) (data : Note)
  | err (status : Nat) (message : String)
deriving Repr, DecidableEq

/-- Rendered response of a bookmark endpoint returning a row. -/
inductive BookmarkResp where
  | ok (data : Bookmark)
  | err (status : Nat) (message : String)
deriving Repr, DecidableEq

/-- Rendered response of a delete endpoint: 204 no content (notes),
200 with a message (bookmarks), or an error envelope. -/
inductive DeleteResp where
  | noContent
  | okMsg (message : String)
  | err (status : Nat) (message : String)
deriving Repr, DecidableEq

/-- `GetNote.handle`: `select("*").eq("id", id).eq("user_id", user.id)
.single()`; error code `PGRST116` maps to 404 "Note not found". -/
def getNote (st : List Note) (user id : String) : NoteResp :=
  match st.filter (noteOwned user id) with
  | [n] => .ok n
  | _ => .err 404 "Note not found"

/-- Body of `PUT /v1/notes/:id` (all fields optional). -/
structure NoteUpdateBody where
  title : Option String := none
  content : Option String := none
  tags : Option String := none
  version : Option Nat := none
deriving Repr, DecidableEq

/-- Application of the `updateNote` payload to a row: only the fields the
handler put into the payload change. -/
def applyNoteBody (b : NoteUpdateBody) (newVersion : Option Nat) (n : Note) : Note :=
  { n with
    title := b.title.getD n.title
    content := b.content.getD n.content
    tags := match b.tags with | some t => some t | none => n.tags
    version := newVersion.getD n.version }

/-- The `Object.keys(updateNote).length === 0` test of `UpdateNote.handle`:
the payload is empty exactly when no updatable field was provided. -/
def noteBodyEmpty (b : NoteUpdateBody) : Bool :=
  b.title.isNone && b.content.isNone && b.tags.isNone && b.version.isNone

/-- The write phase of `UpdateNote.handle`: `update(payload).eq("id", id)
.eq("user_id", user.id).select().single()`; `PGRST116` maps to
404 "Note not found". -/
def updateNoteWrite (st : List Note) (user id : String) (b : NoteUpdateBody)
    (newVersion : Option Nat) : NoteResp × List Note :=
  let p := noteOwned user id
  let st' := st.map fun n => if p n then applyNoteBody b newVersion n else n
  match (st.filter p).map (applyNoteBody b newVersion) with
  | [n] => (.ok n, st')
  | _ => (.err 404 "Note not found", st')

/-- `UpdateNote.handle` (the registered `updateNote.ts`): when the body
carries `version`, first fetch the current row (404 via `PGRST116` when
absent) and answer 409 carrying the current row when the stored version
differs; then apply the partial update, with `version := version + 1` put
into the payload exactly when the body carried a version; an empty payload
is rejected with 400 before the write. -/
def updateNote (st : List Note) (user id : String) (b : NoteUpdateBody) :
    NoteResp × List Note :=
  match b.version with
  | some v =>
    match st.filter (noteOwned user id) with
    | [cur] =>
      if cur.version ≠ v then
        (.conflict "Version conflict - note was modified by another client" cur, st)
      else
        updateNoteWrite st user id b (some (v + 1))
    | _ => (.err 404 "Note not found", st)
  | none =>
    if noteBodyEmpty b then
      (.err 400 "No fields provided to update", st)
    else
      updateNoteWrite st user id b none

/-- `DeleteNote.handle`: a bare `.delete().eq("id", id).eq("user_id",
user.id)` reports no error even when nothing matched, so the handler always
answers 204; its `PGRST116 → 404` branch cannot fire. -/
def deleteNote (st : List Note) (user id : String) : DeleteResp × List Note :=
  (.noContent, st.filter fun n => !(noteOwned user id n))

/-- `DeleteBookmark.handle`: `.delete().eq("id", id).eq("user_id", user.id)
.select().single()`; with zero matching rows `.single()` yields `PGRST116`,
which the handler converts to `HTTPException(500, "Failed to delete
bookmark")`, rendered by `onError` as 500 "Internal server error"; the
`if (!data)` 404 branch is unreachable. -/
def deleteBookmark (st : List Bookmark) (user id : String) :
    DeleteResp × List Bookmark :=
  let st' := st.filter fun b => !(bmOwned user id b)
  match st.filter (bmOwned user id) with
  | [_] => (.okMsg "Bookmark deleted successfully", st')
  | _ => (.err 500 "Internal server error", st')

/-- Body of `PUT /v1/bookmarks/:id` (all fields optional). -/
structure BookmarkUpdateBody where
  title : Option String := none
  url : Option String := none
  tags : Option String := none
  status : Option String := none
deriving Repr, DecidableEq

/-- Application of the `UpdateBookmark.handle` payload to a row. -/
def applyBookmarkBody (u : BookmarkUpdateBody) (b : Bookmark) : Bookmark :=
  { b with
    title := u.title.getD b.title
    url := u.url.getD b.url
    tags := match u.tags with | some t => some t | none => b.tags
    status := u.status.getD b.status }

/-- `UpdateBookmark.handle`: no emptiness check on the payload — an empty
body is forwarded to the store, where an empty update is a no-op returning
the matching rows; any store error (including `PGRST116` for a missing row)
becomes `HTTPException(500, ...)`, rendered as 500 "Internal server
error". -/
def updateBookmark (st : List Bookmark) (user id : String)
    (body : BookmarkUpdateBody) : BookmarkResp × List Bookmark :=
  let p := bmOwned user id
  let st' := st.map fun b => if p b then applyBookmarkBody body b else b
  match (st.filter p).map (applyBookmarkBody body) with
  | [b] => (.ok b, st')
  | _ => (.err 500 "Internal server error", st')

/-! ## List endpoint: GET /v1/bookmarks -/

/-- Query parameters of `GetBookmarks.handle` (`days` already parsed). -/
structure BookmarkListQuery where
  status : String := "all"
  is_favorite : Option String := none
  tag : Option String := none
  days : Option Nat := none
  sort : String := "date_newest"
deriving Repr, DecidableEq

/-- Case-insensitive substring test, the meaning of SQL
`ilike '%needle%'` on a non-null column. -/
def containsCI (hay needle : String) : Bool :=
  needle.toLower = "" || (hay.toLower.splitOn needle.toLower).length > 1

/-- Stable insertion into a list sorted by `le`; models the store's
`order by`. -/
def insertBy (le : α → α → Bool) (a : α) : List α → List α
  | [] => [a]
  | b :: bs => if le a b then a :: b :: bs else b :: insertBy le a bs

/-- Stable sort by `le`; models the store's `order by`. -/
def sortBy (le : α → α → Bool) : List α → List α
  | [] => []
  | a :: as => insertBy le a (sortBy le as)

/-- Status stage of `GetBookmarks.handle`: `if (status !== "all")
query.eq("status", status)`. -/
def bmStatusFilter (q : BookmarkListQuery) (rows : List Bookmark) : List Bookmark :=
  if q.status ≠ "all" then rows.filter (fun b => b.status == q.status) else rows

/-- Favorite stage: `if (is_favorite === "true") query.eq("is_favorite",
true)`. -/
def bmFavoriteFilter (q : BookmarkListQuery) (rows : List Bookmark) : List Bookmark :=
  if q.is_favorite == some "true" then rows.filter (·.is_favorite) else rows

/-- Tag stage: `if (tag) query.ilike("tags", %tag%)`; a null `tags` column
never matches an `ilike`. -/
def bmTagFilter (q : BookmarkListQuery) (rows : List Bookmark) : List Bookmark :=
  match q.tag with
  | some t =>
    if t = "" then rows
    else rows.filter fun b =>
      match b.tags with
      | some s => containsCI s t
      | none => false
  | none => rows

/-- Age stage: `if (days) query.gte("time_added", now - days·86400)` (the
worker clock is UTC, so JS `setDate(getDate() - days)` subtracts exactly
`days·86400` seconds). -/
def bmDaysFilter (q : BookmarkListQuery) (now : Nat) (rows : List Bookmark) :
    List Bookmark :=
  match q.days with
  | some d => rows.filter fun b => (now : Int) - d * 86400 ≤ (b.time_added : Int)
  | none => rows

/-- Sort stage: the `order by` the handler requests from the store;
`date_newest` and any unrecognized value order newest-first. -/
def bmSort (q : BookmarkListQuery) (rows : List Bookmark) : List Bookmark :=
  match q.sort with
  | "date_oldest" => sortBy (fun a b => decide (a.time_added ≤ b.time_added)) rows
  | "alpha_asc" => sortBy (fun a b => decide (a.title ≤ b.title)) rows
  | "alpha_desc" => sortBy (fun a b => decide (b.title ≤ a.title)) rows
  | _ => sortBy (fun a b => decide (b.time_added ≤ a.time_added)) rows

/-- `GetBookmarks.handle` (the list endpoint): always filters by the
caller's `user_id`, then applies the optional status / favorite / tag /
age filters and the requested order. -/
def getBookmarksList (st : List Bookmark) (user : String)
    (q : BookmarkListQuery) (now : Nat) : List Bookmark :=
  bmSort q (bmDaysFilter q now (bmTagFilter q (bmFavoriteFilter q
    (bmStatusFilter q (st.filter fun b => b.user_id == user)))))

/-! ## Batch operation processors -/

/-- Tag of a batch operation item. -/
inductive OpType where
  | create
  | update
  | delete
deriving Repr, DecidableEq

/-- One item of the `POST /v1/bookmarks/batch` envelope (validated by the
operation schema: unknown tags are impossible). -/
structure BookmarkOp where
  operation : OpType
  id : Option String := none
  title : Option String := none
  url : Option String := none
  tags : Option String := none
  status : Option String := none
  is_favorite : Option Bool := none
  version : Option Nat := none
deriving Repr, DecidableEq

/-- One item of the `POST /v1/notes/batch` envelope. -/
structure NoteOp where
  operation : OpType
  id : Option String := none
  title : Option String := none
  content : Option String := none
  tags : Option String := none
  is_favorite : Option Bool := none
  version : Option Nat := none
deriving Repr, DecidableEq

/-- One entry of the batch `results` array. -/
structure BatchResult (α : Type) where
  success : Bool
  operation : OpType
  id : Option String := none
  error : Option String := none
  data : Option α := none
deriving Repr, DecidableEq

/-- The batch `summary` object. -/
structure BatchSummary where
  total : Nat
  successful : Nat
  failed : Nat
deriving Repr, DecidableEq

/-- The full batch response body; `status` is the HTTP status of the
response (`c.json` answers 200). -/
structure BatchResponse (α : Type) where
  status : Nat
  results : List (BatchResult α)
  summary : BatchSummary
deriving Repr, DecidableEq

/-- `bookmarks` table state: rows plus the counter generating the ids the
database assigns on insert. -/
structure BookmarksDB where
  rows : List Bookmark := []
  nextId : Nat := 0
deriving Repr, DecidableEq

/-- `notes` table state. -/
structure NotesDB where
  rows : List Note := []
  nextId : Nat := 0
deriving Repr, DecidableEq

/-- Id the store assigns to the `n`-th inserted bookmark. -/
def genBookmarkId (n : Nat) : String := "bookmark-" ++ toString n

/-- Id the store assigns to the `n`-th inserted note. -/
def genNoteId (n : Nat) : String := "note-" ++ toString n

/-- Fields the batch bookmark update writes (`!== undefined` checks: an
explicitly supplied empty string is written). -/
def applyBookmarkOpFields (op : BookmarkOp) (b : Bookmark) : Bookmark :=
  { b with
    title := op.title.getD b.title
    url := op.url.getD b.url
    tags := match op.tags with | some t => some t | none => b.tags
    status := op.status.getD b.status
    is_favorite := op.is_favorite.getD b.is_favorite }

/-- One iteration of the `BatchBookmarks.handle` loop.  Create requires a
truthy `url`.  Update requires a truthy `id`; when the item carries a
version the source chains `.eq("version", op.version)`, a filter on a
column the bookmarks table does not have, so the store rejects the whole
request (Postgres 42703, "column bookmarks.version does not exist") before
touching any row — the thrown error is caught by the item-level catch and
recorded with its message; without a version the update is filtered by
id + user_id and any `PGRST116` (zero rows) is recorded as the
version-conflict failure.  Delete requires a truthy `id` and is a bare
`.delete()`, which reports no error when nothing matched. -/
def processBookmarkOp (user : String) (now : Nat) (db : BookmarksDB)
    (op : BookmarkOp) : BatchResult Bookmark × BookmarksDB :=
  match op.operation with
  | .create =>
    if strFalsy op.url then
      ({ success := false, operation := .create,
         error := some "URL is required for create operation" }, db)
    else
      let u := op.url.getD ""
      let newRow : Bookmark :=
        { id := genBookmarkId db.nextId
          user_id := user
          title := jsOrElse op.title u
          url := u
          tags := jsOrNull op.tags
          status := jsOrElse op.status "unread"
          is_favorite := op.is_favorite.getD false
          time_added := now }
      ({ success := true, operation := .create, id := some newRow.id,
         data := some newRow },
       { rows := db.rows ++ [newRow], nextId := db.nextId + 1 })
  | .update =>
    if strFalsy op.id then
      ({ success := false, operation := .update,
         error := some "Bookmark ID is required for update operation" }, db)
    else
      match op.version with
      | some _ =>
        ({ success := false, operation := .update, id := op.id,
           error := some "column bookmarks.version does not exist" }, db)
      | none =>
        let idv := op.id.getD ""
        let p := bmOwned user idv
        let rows' := db.rows.map fun b => if p b then applyBookmarkOpFields op b else b
        match (db.rows.filter p).map (applyBookmarkOpFields op) with
        | [b] =>
          ({ success := true, operation := .update, id := some b.id,
             data := some b }, { db with rows := rows' })
        | _ =>
          ({ success := false, operation := .update, id := op.id,
             error := some "Version conflict - bookmark was modified by another client" },
           { db with rows := rows' })
  | .delete =>
    if strFalsy op.id then
      ({ success := false, operation := .delete,
         error := some "Bookmark ID is required for delete operation" }, db)
    else
      ({ success := true, operation := .delete, id := op.id },
       { db with rows := db.rows.filter fun b => !(bmOwned user (op.id.getD "") b) })

/-- Row filter of the batch note update. -/
def noteUpdateMatch (user : String) (op : NoteOp) (idv : String)
    (n : Note) : Bool :=
  n.id == idv && n.user_id == user &&
    (match op.version with | some v => n.version == v | none => true)

/-- Fields the batch note update writes. -/
def applyNoteOpFields (op : NoteOp) (n : Note) : Note :=
  { n with
    title := op.title.getD n.title
    content := op.content.getD n.content
    tags := match op.tags with | some t => some t | none => n.tags
    is_favorite := op.is_favorite.getD n.is_favorite }

/-- One iteration of the `BatchNotes.handle` loop.  Unlike bookmarks,
create has no required field: missing title/content insert as `""`. -/
def processNoteOp (user : String) (db : NotesDB) (op : NoteOp) :
    BatchResult Note × NotesDB :=
  match op.operation with
  | .create =>
    let newRow : Note :=
      { id := genNoteId db.nextId
        user_id := user
        title := jsOrElse op.title ""
        content := jsOrElse op.content ""
        tags := jsOrNull op.tags
        is_favorite := op.is_favorite.getD false
        version := 1 }
    ({ success := true, operation := .create, id := some newRow.id,
       data := some newRow },
     { rows := db.rows ++ [newRow], nextId := db.nextId + 1 })
  | .update =>
    if strFalsy op.id then
      ({ success := false, operation := .update,
         error := some "Note ID is required for update operation" }, db)
    else
      let idv := op.id.getD ""
      let p := noteUpdateMatch user op idv
      let rows' := db.rows.map fun n => if p n then applyNoteOpFields op n else n
      match (db.rows.filter p).map (applyNoteOpFields op) with
      | [n] =>
        ({ success := true, operation := .update, id := some n.id,
           data := some n }, { db with rows := rows' })
      | _ =>
        ({ success := false, operation := .update, id := op.id,
           error := some "Version conflict - note was modified by another client" },
         { db with rows := rows' })
  | .delete =>
    if strFalsy op.id then
      ({ success := false, operation := .delete,
         error := some "Note ID is required for delete operation" }, db)
    else
      ({ success := true, operation := .delete, id := op.id },
       { db with rows := db.rows.filter fun n => !(noteOwned user (op.id.getD "") n) })

/-- The sequential loop of `BatchBookmarks.handle`: one result per
operation, in order, each started on the state the previous one left. -/
def processBookmarkOps (user : String) (now : Nat) (db : BookmarksDB) :
    List BookmarkOp → List (BatchResult Bookmark) × BookmarksDB
  | [] => ([], db)
  | op :: rest =>
    let r := processBookmarkOp user now db op
    let rs := processBookmarkOps user now r.2 rest
    (r.1 :: rs.1, rs.2)

/-- The sequential loop of `BatchNotes.handle`. -/
def processNoteOps (user : String) (db : NotesDB) :
    List NoteOp → List (BatchResult Note) × NotesDB
  | [] => ([], db)
  | op :: rest =>
    let r := processNoteOp user db op
    let rs := processNoteOps user r.2 rest
    (r.1 :: rs.1, rs.2)

/-- Number of results with the given success flag. -/
def countSuccess (rs : List (BatchResult α)) (b : Bool) : Nat :=
  (rs.filter fun r => r.success == b).length

/-- `BatchBookmarks.handle` on a validated envelope: process the operations
sequentially and answer 200 with per-item results and the summary
`{total, successful, failed}` counted over the results. -/
def batchBookmarks (user : String) (now : Nat) (db : BookmarksDB)
    (ops : List BookmarkOp) : BatchResponse Bookmark × BookmarksDB :=
  let rs := processBookmarkOps user now db ops
  ({ status := 200
     results := rs.1
     summary :=
       { total := ops.length
         successful := countSuccess rs.1 true
         failed := countSuccess rs.1 false } }, rs.2)

/-- `BatchNotes.handle` on a validated envelope. -/
def batchNotes (user : String) (db : NotesDB) (ops : List NoteOp) :
    BatchResponse Note × NotesDB :=
  let rs := processNoteOps user db ops
  ({ status := 200
     results := rs.1
     summary :=
       { total := ops.length
         successful := countSuccess rs.1 true
         failed := countSuccess rs.1 false } }, rs.2)

/-! ## Og-image URL resolution (GetOgImage.handle) -/

/-- JS `String.prototype.startsWith`, phrased over the character list so
that it evaluates inside the kernel. -/
def strStartsWith (s p : String) : Bool := p.data.isPrefixOf s.data

/-- The og:image resolution step of `GetOgImage.handle`.  `protocol` is JS
`URL.protocol` and includes the trailing colon (e.g. `"https:"`); `host`
is `URL.host`.  The source tests `ogImage.startsWith("/")` first and only
`else` tests `startsWith("//")`, so the protocol-relative branch is
unreachable: any string starting with `"//"` also starts with `"/"`. -/
def resolveOgImage (protocol host ogImage : String) : String :=
  if strStartsWith ogImage "/" then protocol ++ "//" ++ host ++ ogImage
  else if strStartsWith ogImage "//" then protocol ++ ogImage
  else ogImage

end Turbodoc

namespace Turbodoc

section Scratch

example :
    getNote [⟨"n1", "u", "t", "c", none, false, 1⟩] "u" "n1" =
      .ok ⟨"n1", "u", "t", "c", none, false, 1⟩ := by decide

example : getNote [⟨"n1", "v", "t", "c", none, false, 1⟩] "u" "n1" =
    .err 404 "Note not found" := by decide

example :
    updateNote [⟨"n1", "u", "t", "c", none, false, 2⟩] "u" "n1"
      { title := some "t2", version := some 1 } =
    (.conflict "Version conflict - note was modified by another client"
      ⟨"n1", "u", "t", "c", none, false, 2⟩,
     [⟨"n1", "u", "t", "c", none, false, 2⟩]) := by decide

example :
    updateNote [⟨"n1", "u", "t", "c", none, false, 1⟩] "u" "n1"
      { title := some "t2", version := some 1 } =
    (.ok ⟨"n1", "u", "t2", "c", none, false, 2⟩,
     [⟨"n1", "u", "t2", "c", none, false, 2⟩]) := by decide

example :
    updateNote [⟨"n1", "u", "t", "c", none, false, 1⟩] "u" "n1"
      { title := some "t2" } =
    (.ok ⟨"n1", "u", "t2", "c", none, false, 1⟩,
     [⟨"n1", "u", "t2", "c", none, false, 1⟩]) := by decide

example : deleteNote [] "u" "zzz" = (.noContent, []) := by decide

example : deleteBookmark [] "u" "zzz" = (.err 500 "Internal server error", []) := by
  decide

example :
    (batchBookmarks "u" 5 {} [{ operation := .delete, id := some "X" },
      { operation := .create, url := some "https://y.test" }]).1.summary =
    { total := 2, successful := 2, failed := 0 } := by decide

example :
    ((batchBookmarks "u" 5 {} [{ operation := .delete, id := some "X" },
      { operation := .create, url := some "https://y.test" }]).1.results.map
        (·.success)) = [true, true] := by decide

example :
    (batchNotes "u" {} [{ operation := .create }]).2.rows =
    [⟨"note-0", "u", "", "", none, false, 1⟩] := by decide

example :
    resolveOgImage "https:" "site.test" "//cdn.example/img.png" =
    "https://site.test//cdn.example/img.png" := by decide

example :
    resolveOgImage "https:" "site.test" "/img.png" =
    "https://site.test/img.png" := by decide

example :
    resolveOgImage "https:" "site.test" "https://cdn.example/img.png" =
    "https://cdn.example/img.png" := by decide

example :
    getBookmarksList [⟨"b1", "u", "t", "https://x", none, "unread", false, 7⟩,
      ⟨"b2", "v", "t", "https://x", none, "unread", false, 9⟩] "u" {} 10 =
    [⟨"b1", "u", "t", "https://x", none, "unread", false, 7⟩] := by decide

end Scratch

/-! ## General lemmas -/

theorem length_processBookmarkOps (user : String) (now : Nat) (db : BookmarksDB)
    (ops : List BookmarkOp) :
    (processBookmarkOps user now db ops).1.length = ops.length := by
  induction ops generalizing db with
  | nil => rfl
  | cons op rest ih => simp [processBookmarkOps, ih]

theorem length_processNoteOps (user : String) (db : NotesDB) (ops : List NoteOp) :
    (processNoteOps user db ops).1.length = ops.length := by
  induction ops generalizing db with
  | nil => rfl
  | cons op rest ih => simp [processNoteOps, ih]

theorem countSuccess_add (rs : List (BatchResult α)) :
    countSuccess rs true + countSuccess rs false = rs.length := by
  induction rs with
  | nil => rfl
  | cons r rest ih =>
    rcases hs : r.success <;>
      simp [countSuccess, List.filter, hs] at ih ⊢
    all_goals omega

theorem mem_insertBy {le : α → α → Bool} {a x : α} {l : List α} :
    x ∈ insertBy le a l ↔ x = a ∨ x ∈ l := by
  induction l with
  | nil => simp [insertBy]
  | cons b bs ih =>
    by_cases h : le a b = true <;> simp [insertBy, h, ih]
    all_goals tauto

theorem mem_sortBy {le : α → α → Bool} {x : α} {l : List α} :
    x ∈ sortBy le l ↔ x ∈ l := by
  induction l with
  | nil => simp [sortBy]
  | cons a as ih => simp [sortBy, mem_insertBy, ih]

theorem mem_of_mem_ite_filter {c : Prop} [Decidable c] {l : List α}
    {p : α → Bool} {b : α} (h : b ∈ (if c then l.filter p else l)) : b ∈ l := by
  split at h
  · exact (List.mem_filter.1 h).1
  · exact h

/-- Rewriting a row through the update payload does not change its owner:
`user_id` is not among the written fields. -/
theorem applyBookmarkOpFields_user_id (op : BookmarkOp) (b : Bookmark) :
    (applyBookmarkOpFields op b).user_id = b.user_id := rfl

theorem applyNoteOpFields_user_id (op : NoteOp) (n : Note) :
    (applyNoteOpFields op n).user_id = n.user_id := rfl

theorem bmOwned_user {user idv : String} {b : Bookmark}
    (h : bmOwned user idv b = true) : b.user_id = user := by
  simp only [bmOwned, Bool.and_eq_true, beq_iff_eq] at h
  exact h.2

theorem noteUpdateMatch_user {user : String} {op : NoteOp} {idv : String}
    {n : Note} (h : noteUpdateMatch user op idv n = true) : n.user_id = user := by
  simp only [noteUpdateMatch, Bool.and_eq_true, beq_iff_eq] at h
  exact h.1.2

/-- An update loop over rows matched by an owner-scoped predicate leaves
membership of rows of any other user unchanged. -/
theorem mem_map_guard {α : Type} (u : α → String) (user : String)
    (p : α → Bool) (f : α → α) (rows : List α) (r : α)
    (hp : ∀ a, p a = true → u a = user) (hf : ∀ a, u (f a) = u a)
    (hr : u r ≠ user) :
    (r ∈ rows.map fun a => if p a then f a else a) ↔ r ∈ rows := by
  constructor
  · intro h
    rcases List.mem_map.1 h with ⟨b, hb, hbe⟩
    by_cases hpb : p b = true
    · exact absurd (by rw [← hbe, if_pos hpb, hf, hp b hpb]) hr
    · rw [if_neg hpb] at hbe
      exact hbe ▸ hb
  · intro h
    exact List.mem_map.2 ⟨r, h, if_neg fun hpr => hr (hp r hpr)⟩

/-- One batch bookmark operation never adds, removes or rewrites a row of a
different user. -/
theorem processBookmarkOp_preserves (user : String) (now : Nat)
    (db : BookmarksDB) (op : BookmarkOp) (r : Bookmark)
    (hr : r.user_id ≠ user) :
    (r ∈ (processBookmarkOp user now db op).2.rows) ↔ r ∈ db.rows := by
  cases hop : op.operation
  case create =>
    by_cases hu : strFalsy op.url = true
    · simp [processBookmarkOp, hop, hu]
    · simp only [processBookmarkOp, hop, hu, Bool.false_eq_true, if_neg,
        if_false, List.mem_append, List.mem_singleton]
      constructor
      · rintro (h | h)
        · exact h
        · exact absurd (by rw [h]) hr
      · exact Or.inl
  case update =>
    by_cases hi : strFalsy op.id = true
    · simp [processBookmarkOp, hop, hi]
    · rcases hv : op.version with _ | v
      · simp only [processBookmarkOp, hop, hi, hv, Bool.false_eq_true, if_false]
        have key := mem_map_guard Bookmark.user_id user
          (bmOwned user (op.id.getD "")) (applyBookmarkOpFields op)
          db.rows r (fun a ha => bmOwned_user ha)
          (fun a => applyBookmarkOpFields_user_id op a) hr
        split <;> exact key
      · simp [processBookmarkOp, hop, hi, hv]
  case delete =>
    by_cases hi : strFalsy op.id = true
    · simp [processBookmarkOp, hop, hi]
    · have hq : bmOwned user (op.id.getD "") r = false := by
        simp [bmOwned, hr]
      simp [processBookmarkOp, hop, hi, List.mem_filter, hq]

/-- One batch note operation never adds, removes or rewrites a row of a
different user. -/
theorem processNoteOp_preserves (user : String) (db : NotesDB) (op : NoteOp)
    (r : Note) (hr : r.user_id ≠ user) :
    (r ∈ (processNoteOp user db op).2.rows) ↔ r ∈ db.rows := by
  cases hop : op.operation
  case create =>
    simp only [processNoteOp, hop, List.mem_append, List.mem_singleton]
    constructor
    · rintro (h | h)
      · exact h
      · exact absurd (by rw [h]) hr
    · exact Or.inl
  case update =>
    by_cases hi : strFalsy op.id = true
    · simp [processNoteOp, hop, hi]
    · simp only [processNoteOp, hop, hi, Bool.false_eq_true, if_false]
      have key := mem_map_guard Note.user_id user
        (noteUpdateMatch user op (op.id.getD "")) (applyNoteOpFields op)
        db.rows r (fun a ha => noteUpdateMatch_user ha)
        (fun a => applyNoteOpFields_user_id op a) hr
      split <;> exact key
  case delete =>
    by_cases hi : strFalsy op.id = true
    · simp [processNoteOp, hop, hi]
    · have hq : noteOwned user (op.id.getD "") r = false := by
        simp [noteOwned, hr]
      simp [processNoteOp, hop, hi, List.mem_filter, hq]

theorem processBookmarkOps_preserves (user : String) (now : Nat)
    (db : BookmarksDB) (ops : List BookmarkOp) (r : Bookmark)
    (hr : r.user_id ≠ user) :
    (r ∈ (processBookmarkOps user now db ops).2.rows) ↔ r ∈ db.rows := by
  induction ops generalizing db with
  | nil => simp [processBookmarkOps]
  | cons op rest ih =>
    simp only [processBookmarkOps]
    rw [ih, processBookmarkOp_preserves user now db op r hr]

theorem processNoteOps_preserves (user : String) (db : NotesDB)
    (ops : List NoteOp) (r : Note) (hr : r.user_id ≠ user) :
    (r ∈ (processNoteOps user db ops).2.rows) ↔ r ∈ db.rows := by
  induction ops generalizing db with
  | nil => simp [processNoteOps]
  | cons op rest ih =>
    simp only [processNoteOps]
    rw [ih, processNoteOp_preserves user db op r hr]

theorem getNote_ok_owner {st : List Note} {user id : String} {n : Note}
    (h : getNote st user id = .ok n) : n.user_id = user ∧ n ∈ st := by
  unfold getNote at h
  split at h
  next m hm =>
    injection h with hmn
    subst hmn
    have hmem : m ∈ st.filter (noteOwned user id) := by
      rw [hm]; exact List.mem_singleton_self m
    have hsplit := List.mem_filter.1 hmem
    refine ⟨?_, hsplit.1⟩
    have ho := hsplit.2
    simp only [noteOwned, Bool.and_eq_true, beq_iff_eq] at ho
    exact ho.2
  next => cases h

theorem getNote_not_owned {st : List Note} {user id : String}
    (hno : ∀ n ∈ st, ¬(n.id = id ∧ n.user_id = user)) :
    getNote st user id = .err 404 "Note not found" := by
  have hnil : st.filter (noteOwned user id) = [] := by
    rw [List.filter_eq_nil_iff]
    intro n hn
    have := hno n hn
    simp only [noteOwned, Bool.and_eq_true, beq_iff_eq]
    tauto
  unfold getNote
  rw [hnil]

theorem mem_of_bmSort {q : BookmarkListQuery} {rows : List Bookmark}
    {b : Bookmark} (h : b ∈ bmSort q rows) : b ∈ rows := by
  unfold bmSort at h
  split at h <;> exact mem_sortBy.1 h

theorem mem_of_bmDaysFilter {q : BookmarkListQuery} {now : Nat}
    {rows : List Bookmark} {b : Bookmark} (h : b ∈ bmDaysFilter q now rows) :
    b ∈ rows := by
  unfold bmDaysFilter at h
  split at h
  · exact (List.mem_filter.1 h).1
  · exact h

theorem mem_of_bmTagFilter {q : BookmarkListQuery} {rows : List Bookmark}
    {b : Bookmark} (h : b ∈ bmTagFilter q rows) : b ∈ rows := by
  unfold bmTagFilter at h
  split at h
  · split at h
    · exact h
    · exact (List.mem_filter.1 h).1
  · exact h

theorem mem_of_bmFavoriteFilter {q : BookmarkListQuery} {rows : List Bookmark}
    {b : Bookmark} (h : b ∈ bmFavoriteFilter q rows) : b ∈ rows :=
  mem_of_mem_ite_filter h

theorem mem_of_bmStatusFilter {q : BookmarkListQuery} {rows : List Bookmark}
    {b : Bookmark} (h : b ∈ bmStatusFilter q rows) : b ∈ rows :=
  mem_of_mem_ite_filter h

theorem getBookmarksList_owner {st : List Bookmark} {user : String}
    {q : BookmarkListQuery} {now : Nat} {b : Bookmark}
    (hb : b ∈ getBookmarksList st user q now) : b.user_id = user := by
  unfold getBookmarksList at hb
  have hmem := mem_of_bmStatusFilter (mem_of_bmFavoriteFilter
    (mem_of_bmTagFilter (mem_of_bmDaysFilter (mem_of_bmSort hb))))
  have := (List.mem_filter.1 hmem).2
  simpa using this

/-! ## Claims -/

/-- C1: for every syntactically valid batch envelope (1–100 operations),
`BatchBookmarks.handle` and `BatchNotes.handle` answer HTTP 200 with one
result entry per operation; the summary's `total` equals the number of
operations, `successful` and `failed` count the result entries with
success true resp. false, and they add up to `total` — an item-level
failure never escalates to an HTTP-level error. -/
theorem claim_C1 (user : String) (now : Nat) (dbB : BookmarksDB)
    (opsB : List BookmarkOp) (dbN : NotesDB) (opsN : List NoteOp)
    (_hB1 : 1 ≤ opsB.length) (_hB2 : opsB.length ≤ 100)
    (_hN1 : 1 ≤ opsN.length) (_hN2 : opsN.length ≤ 100) :
    (batchBookmarks user now dbB opsB).1.status = 200 ∧
    (batchBookmarks user now dbB opsB).1.results.length = opsB.length ∧
    (batchBookmarks user now dbB opsB).1.summary.total = opsB.length ∧
    (batchBookmarks user now dbB opsB).1.summary.successful =
      countSuccess (batchBookmarks user now dbB opsB).1.results true ∧
    (batchBookmarks user now dbB opsB).1.summary.failed =
      countSuccess (batchBookmarks user now dbB opsB).1.results false ∧
    (batchBookmarks user now dbB opsB).1.summary.successful +
        (batchBookmarks user now dbB opsB).1.summary.failed =
      (batchBookmarks user now dbB opsB).1.summary.total ∧
    (batchNotes user dbN opsN).1.status = 200 ∧
    (batchNotes user dbN opsN).1.results.length = opsN.length ∧
    (batchNotes user dbN opsN).1.summary.total = opsN.length ∧
    (batchNotes user dbN opsN).1.summary.successful =
      countSuccess (batchNotes user dbN opsN).1.results true ∧
    (batchNotes user dbN opsN).1.summary.failed =
      countSuccess (batchNotes user dbN opsN).1.results false ∧
    (batchNotes user dbN opsN).1.summary.successful +
        (batchNotes user dbN opsN).1.summary.failed =
      (batchNotes user dbN opsN).1.summary.total := by
  refine ⟨rfl, length_processBookmarkOps user now dbB opsB, rfl, rfl, rfl, ?_,
    rfl, length_processNoteOps user dbN opsN, rfl, rfl, rfl, ?_⟩
  · show countSuccess (processBookmarkOps user now dbB opsB).1 true +
        countSuccess (processBookmarkOps user now dbB opsB).1 false = opsB.length
    rw [countSuccess_add, length_processBookmarkOps]
  · show countSuccess (processNoteOps user dbN opsN).1 true +
        countSuccess (processNoteOps user dbN opsN).1 false = opsN.length
    rw [countSuccess_add, length_processNoteOps]

/-- C1 witness: a 2-item bookmark batch and a 2-item note batch in which
every item fails (create without url, updates/deletes without id) still
answer HTTP 200 with `summary.failed = 2` and `summary.successful = 0`. -/
theorem claim_C1_witness :
    (batchBookmarks "u" 5 {} [{ operation := .create },
      { operation := .update }]).1.status = 200 ∧
    (batchBookmarks "u" 5 {} [{ operation := .create },
      { operation := .update }]).1.summary.failed = 2 ∧
    (batchBookmarks "u" 5 {} [{ operation := .create },
      { operation := .update }]).1.summary.successful = 0 ∧
    (batchNotes "u" {} [{ operation := .update },
      { operation := .delete }]).1.status = 200 ∧
    (batchNotes "u" {} [{ operation := .update },
      { operation := .delete }]).1.summary.failed = 2 ∧
    (batchNotes "u" {} [{ operation := .update },
      { operation := .delete }]).1.summary.successful = 0 :=
  ⟨(claim_C1 "u" 5 {} [{ operation := .create }, { operation := .update }]
      {} [{ operation := .update }, { operation := .delete }]
      (by decide) (by decide) (by decide) (by decide)).1,
   by decide, by decide, by decide, by decide, by decide⟩

/-- C2: every embedded store access is scoped by the caller's `user_id` in
addition to any primary-key filter: a list endpoint returns only the
caller's rows; a get-by-id answers 200 only with a row of the caller, and
for an id whose row is owned by another user it answers the same 404 as
for a nonexistent row (never 403, never the other user's data); and the
batch processors neither read, rewrite, insert nor delete any row of
another user. -/
theorem claim_C2 (stN : List Note) (stB : List Bookmark) (user id : String)
    (q : BookmarkListQuery) (now : Nat) (dbB : BookmarksDB) (dbN : NotesDB)
    (opsB : List BookmarkOp) (opsN : List NoteOp) :
    (∀ n, getNote stN user id = .ok n → n.user_id = user ∧ n ∈ stN) ∧
    ((∀ n ∈ stN, n.id = id → n.user_id ≠ user) →
      getNote stN user id = .err 404 "Note not found" ∧
      getNote stN user id = getNote [] user id) ∧
    (∀ b ∈ getBookmarksList stB user q now, b.user_id = user) ∧
    (∀ r : Bookmark, r.user_id ≠ user →
      (r ∈ (processBookmarkOps user now dbB opsB).2.rows ↔ r ∈ dbB.rows)) ∧
    (∀ r : Note, r.user_id ≠ user →
      (r ∈ (processNoteOps user dbN opsN).2.rows ↔ r ∈ dbN.rows)) := by
  refine ⟨fun n h => getNote_ok_owner h, fun hno => ?_,
    fun b hb => getBookmarksList_owner hb,
    fun r hr => processBookmarkOps_preserves user now dbB opsB r hr,
    fun r hr => processNoteOps_preserves user dbN opsN r hr⟩
  have h404 : getNote stN user id = .err 404 "Note not found" :=
    getNote_not_owned fun n hn hni => hno n hn hni.1 hni.2
  exact ⟨h404, by rw [h404]; rfl⟩

/-- C2 witness: for the concrete store holding only another user's note,
get-by-id answers the nonexistent-row 404. -/
theorem claim_C2_witness :
    getNote [⟨"n1", "v", "t", "c", none, false, 1⟩] "u" "n1" =
      .err 404 "Note not found" :=
  ((claim_C2 [⟨"n1", "v", "t", "c", none, false, 1⟩] [] "u" "n1" {} 0 {} {}
      [] []).2.1 (by decide)).1

theorem processBookmarkOp_delete_noMatch (user : String) (now : Nat)
    (db : BookmarksDB) (X : String) (hX : X ≠ "")
    (habs : ∀ b ∈ db.rows, ¬(b.id = X ∧ b.user_id = user)) :
    processBookmarkOp user now db { operation := .delete, id := some X } =
      ({ success := true, operation := .delete, id := some X }, db) := by
  have hfil : db.rows.filter (fun b => !(bmOwned user X b)) = db.rows := by
    rw [List.filter_eq_self]
    intro b hb
    have hnb := habs b hb
    have hof : bmOwned user X b = false := by
      by_cases hid : b.id = X
      · have hu : b.user_id ≠ user := fun hu => hnb ⟨hid, hu⟩
        simp [bmOwned, hid, hu]
      · simp [bmOwned, hid]
    simp [hof]
  simp only [processBookmarkOp, strFalsy, Option.getD_some]
  rw [if_neg (by simpa using hX)]
  simp [hfil]

theorem processBookmarkOp_create_eq (user : String) (now : Nat)
    (db : BookmarksDB) (Y : String) (hY : Y ≠ "") :
    processBookmarkOp user now db { operation := .create, url := some Y } =
      ({ success := true, operation := .create,
         id := some (genBookmarkId db.nextId),
         data := some ⟨genBookmarkId db.nextId, user, Y, Y, none, "unread",
           false, now⟩ },
       { rows := db.rows ++ [⟨genBookmarkId db.nextId, user, Y, Y, none,
           "unread", false, now⟩],
         nextId := db.nextId + 1 }) := by
  simp only [processBookmarkOp, strFalsy]
  rw [if_neg (by simpa using hY)]
  rfl

/-- C3 counterexample: over the empty store, the batch
`[delete id="X", create url="https://y.test"]` records the delete of the
nonexistent id as a success (result flags `[true, true]`), not as the
failure the claim asserts. -/
theorem claim_C3_counterexample :
    ((batchBookmarks "u" 5 {} [{ operation := .delete, id := some "X" },
      { operation := .create, url := some "https://y.test" }]).1.results.map
        (fun r => r.success)) = [true, true] := by decide

/-- C3 amended: in a batch `[delete id=X, create url=Y]` where no row with
id X exists for the caller, the delete item is recorded as a success (a
bare store delete treats absence as benign), and the subsequent create
still executes and succeeds — later items are processed in order and are
unaffected by the earlier item's outcome. -/
theorem claim_C3_amended (user : String) (now : Nat) (db : BookmarksDB)
    (X Y : String) (hX : X ≠ "") (hY : Y ≠ "")
    (habs : ∀ b ∈ db.rows, ¬(b.id = X ∧ b.user_id = user)) :
    batchBookmarks user now db
        [{ operation := .delete, id := some X },
         { operation := .create, url := some Y }] =
      ({ status := 200
         results := [
           { success := true, operation := .delete, id := some X },
           { success := true, operation := .create,
             id := some (genBookmarkId db.nextId),
             data := some ⟨genBookmarkId db.nextId, user, Y, Y, none,
               "unread", false, now⟩ }]
         summary := { total := 2, successful := 2, failed := 0 } },
       { rows := db.rows ++ [⟨genBookmarkId db.nextId, user, Y, Y, none,
           "unread", false, now⟩],
         nextId := db.nextId + 1 }) := by
  have h1 := processBookmarkOp_delete_noMatch user now db X hX habs
  have h2 := processBookmarkOp_create_eq user now db Y hY
  simp only [batchBookmarks, processBookmarkOps, h1, h2]
  rfl

/-- C3 amended witness: the concrete instance over the empty store. -/
theorem claim_C3_amended_witness :
    batchBookmarks "u" 5 {} [{ operation := .delete, id := some "X" },
        { operation := .create, url := some "https://y.test" }] =
      ({ status := 200
         results := [
           { success := true, operation := .delete, id := some "X" },
           { success := true, operation := .create, id := some "bookmark-0",
             data := some ⟨"bookmark-0", "u", "https://y.test",
               "https://y.test", none, "unread", false, 5⟩ }]
         summary := { total := 2, successful := 2, failed := 0 } },
       { rows := [⟨"bookmark-0", "u", "https://y.test", "https://y.test",
           none, "unread", false, 5⟩],
         nextId := 1 }) :=
  claim_C3_amended "u" 5 {} "X" "https://y.test" (by decide) (by decide)
    (by decide)

/-- C4 (evaluating the code at the failing input): a successful batch note
update leaves the stored `version` unchanged (here the row stays at
version 1); a successful batch bookmark update cannot increment any
version because the bookmarks table has no version column at all; and a
successful single-note update without a caller-supplied version also
leaves `version` unchanged; only a single-note update that supplies the
current version increments it by 1 — contradicting the code's own comment
"Increment version on every update" and the notes version column's comment
"Increments on each update". -/
theorem claim_C4 :
    (processNoteOp "u"
        { rows := [⟨"n1", "u", "t", "c", none, false, 1⟩], nextId := 0 }
        { operation := .update, id := some "n1", title := some "t2" }).1.success
        = true ∧
    (processNoteOp "u"
        { rows := [⟨"n1", "u", "t", "c", none, false, 1⟩], nextId := 0 }
        { operation := .update, id := some "n1", title := some "t2" }).2.rows
        = [⟨"n1", "u", "t2", "c", none, false, 1⟩] ∧
    (processBookmarkOp "u" 5
        { rows := [⟨"b1", "u", "t", "https://x", none, "unread", false, 3⟩],
          nextId := 0 }
        { operation := .update, id := some "b1", title := some "t2" }).1.success
        = true ∧
    (processBookmarkOp "u" 5
        { rows := [⟨"b1", "u", "t", "https://x", none, "unread", false, 3⟩],
          nextId := 0 }
        { operation := .update, id := some "b1", title := some "t2" }).2.rows
        = [⟨"b1", "u", "t2", "https://x", none, "unread", false, 3⟩] ∧
    updateNote [⟨"n1", "u", "t", "c", none, false, 1⟩] "u" "n1"
        { title := some "t2" } =
      (.ok ⟨"n1", "u", "t2", "c", none, false, 1⟩,
       [⟨"n1", "u", "t2", "c", none, false, 1⟩]) ∧
    updateNote [⟨"n1", "u", "t", "c", none, false, 1⟩] "u" "n1"
        { title := some "t2", version := some 1 } =
      (.ok ⟨"n1", "u", "t2", "c", none, false, 2⟩,
       [⟨"n1", "u", "t2", "c", none, false, 2⟩]) := by decide

/-- C5: updating a note with a supplied version `v` while the stored row
is at a different version answers 409 whose body's `data` is the currently
stored row (so `data.version` is the stored version, not `v`), and the
store is not modified by the conflicting request. -/
theorem claim_C5 (st : List Note) (user id : String) (b : NoteUpdateBody)
    (cur : Note) (v : Nat) (hv : b.version = some v)
    (hcur : st.filter (noteOwned user id) = [cur]) (hne : cur.version ≠ v) :
    updateNote st user id b =
      (.conflict "Version conflict - note was modified by another client" cur,
       st) := by
  unfold updateNote
  rw [hv, hcur]
  exact if_pos hne

/-- C5 witness: stored version 2, supplied version 1 — the 409 carries the
stored row at version 2 and the store is unchanged. -/
theorem claim_C5_witness :
    updateNote [⟨"n1", "u", "t", "c", none, false, 2⟩] "u" "n1"
        { title := some "x", version := some 1 } =
      (.conflict "Version conflict - note was modified by another client"
        ⟨"n1", "u", "t", "c", none, false, 2⟩,
       [⟨"n1", "u", "t", "c", none, false, 2⟩]) :=
  claim_C5 [⟨"n1", "u", "t", "c", none, false, 2⟩] "u" "n1"
    { title := some "x", version := some 1 }
    ⟨"n1", "u", "t", "c", none, false, 2⟩ 1 rfl (by decide) (by decide)

/-- C6 counterexample: `UpdateBookmark.handle` has no empty-body guard —
over a store holding the caller's row "b1", an update with the empty body
answers 200 with the unchanged row, not 400 "No fields provided to
update". -/
theorem claim_C6_counterexample :
    (updateBookmark
        [⟨"b1", "u", "t", "https://x", none, "unread", false, 3⟩]
        "u" "b1" {}).1 =
      .ok ⟨"b1", "u", "t", "https://x", none, "unread", false, 3⟩ ∧
    (updateBookmark
        [⟨"b1", "u", "t", "https://x", none, "unread", false, 3⟩]
        "u" "b1" {}).1 ≠ .err 400 "No fields provided to update" := by decide

/-- C6 amended: the notes update endpoint rejects an empty body with
400 "No fields provided to update" before any store write (the store is
returned unchanged); the bookmarks update endpoint has no such guard and
forwards the empty update to the store, answering 200 with the matched row
unchanged. -/
theorem claim_C6_amended :
    (∀ (st : List Note) (user id : String),
      updateNote st user id {} = (.err 400 "No fields provided to update", st)) ∧
    (∀ (st : List Bookmark) (user id : String) (cur : Bookmark),
      st.filter (bmOwned user id) = [cur] →
      updateBookmark st user id {} = (.ok cur, st)) := by
  constructor
  · intro st user id
    rfl
  · intro st user id cur hcur
    have happId : applyBookmarkBody {} = fun b => b := funext fun b => rfl
    simp only [updateBookmark, happId, ite_self, List.map_id']
    rw [hcur]

/-- C6 amended witness: concrete instances of both halves. -/
theorem claim_C6_amended_witness :
    updateNote [] "u" "n1" {} = (.err 400 "No fields provided to update", []) ∧
    updateBookmark [⟨"b1", "u", "t", "https://x", none, "unread", false, 3⟩]
        "u" "b1" {} =
      (.ok ⟨"b1", "u", "t", "https://x", none, "unread", false, 3⟩,
       [⟨"b1", "u", "t", "https://x", none, "unread", false, 3⟩]) :=
  ⟨claim_C6_amended.1 [] "u" "n1",
   claim_C6_amended.2
     [⟨"b1", "u", "t", "https://x", none, "unread", false, 3⟩] "u" "b1"
     ⟨"b1", "u", "t", "https://x", none, "unread", false, 3⟩ (by decide)⟩

/-- C7 (evaluating the code at the failing input): deleting an id that
matches no row owned by the caller does not answer 404 — `DeleteNote`
answers 204 No Content (a bare store delete reports no error on zero
matches, so its 404 branch is dead) and `DeleteBookmark` answers 500 (its
`.single()` yields `PGRST116`, which falls into the 500 branch before the
unreachable 404 check); a second delete of an already-deleted id behaves
the same way. -/
theorem claim_C7 :
    deleteNote [] "u" "missing" = (.noContent, []) ∧
    deleteBookmark [] "u" "missing" = (.err 500 "Internal server error", []) ∧
    deleteNote [⟨"n1", "u", "t", "c", none, false, 1⟩] "u" "n1" =
      (.noContent, []) ∧
    deleteNote (deleteNote [⟨"n1", "u", "t", "c", none, false, 1⟩] "u" "n1").2
        "u" "n1" = (.noContent, []) ∧
    deleteBookmark
        [⟨"b1", "u", "t", "https://x", none, "unread", false, 3⟩] "u" "b1" =
      (.okMsg "Bookmark deleted successfully", []) ∧
    deleteBookmark
        (deleteBookmark
          [⟨"b1", "u", "t", "https://x", none, "unread", false, 3⟩]
          "u" "b1").2 "u" "b1" =
      (.err 500 "Internal server error", []) := by decide

/-- C8 (evaluating the code at the failing input): a relative og:image
`"/p"` is resolved against the source origin and an absolute og:image is
returned unchanged, but a protocol-relative `"//cdn.example/img.png"` is
caught by the `startsWith("/")` branch before the protocol-relative branch
can fire, producing `"https://site.test//cdn.example/img.png"` instead of
the claimed `"https://cdn.example/img.png"`. -/
theorem claim_C8 :
    resolveOgImage "https:" "site.test" "/p" = "https://site.test/p" ∧
    resolveOgImage "https:" "site.test" "https://cdn.example/img.png" =
      "https://cdn.example/img.png" ∧
    resolveOgImage "https:" "site.test" "//cdn.example/img.png" =
      "https://site.test//cdn.example/img.png" ∧
    resolveOgImage "https:" "site.test" "//cdn.example/img.png" ≠
      "https://cdn.example/img.png" := by decide

/-- C9: in both batch update paths a store `PGRST116` (no row matched the
filters) is recorded with the version-conflict message even when the item
supplied no version at all — a batch update of a nonexistent id without a
version is reported as a version conflict — and no batch update failure is
ever classified as not-found: a recorded bookmark update failure carries
the missing-id message, the version-conflict message, or (when the item
supplied a version, since the bookmarks table has no version column) the
store's undefined-column message; a recorded note update failure carries
the missing-id or version-conflict message. -/
theorem claim_C9 (user : String) (now : Nat) (dbB : BookmarksDB)
    (dbN : NotesDB) (idB idN : String) (opB : BookmarkOp) (opN : NoteOp) :
    (opB.operation = .update → opB.id = some idB → idB ≠ "" →
      opB.version = none →
      (∀ b ∈ dbB.rows, ¬(b.id = idB ∧ b.user_id = user)) →
      (processBookmarkOp user now dbB opB).1 =
        { success := false, operation := .update, id := some idB,
          error := some "Version conflict - bookmark was modified by another client" }) ∧
    (opN.operation = .update → opN.id = some idN → idN ≠ "" →
      opN.version = none →
      (∀ n ∈ dbN.rows, ¬(n.id = idN ∧ n.user_id = user)) →
      (processNoteOp user dbN opN).1 =
        { success := false, operation := .update, id := some idN,
          error := some "Version conflict - note was modified by another client" }) ∧
    (opB.operation = .update →
      (processBookmarkOp user now dbB opB).1.success = false →
      (processBookmarkOp user now dbB opB).1.error =
          some "Bookmark ID is required for update operation" ∨
      (processBookmarkOp user now dbB opB).1.error =
          some "Version conflict - bookmark was modified by another client" ∨
      (processBookmarkOp user now dbB opB).1.error =
          some "column bookmarks.version does not exist") ∧
    (opB.operation = .update → opB.id = some idB → idB ≠ "" →
      (∀ v, opB.version = some v →
        processBookmarkOp user now dbB opB =
          ({ success := false, operation := .update, id := some idB,
             error := some "column bookmarks.version does not exist" },
           dbB))) ∧
    (opN.operation = .update →
      (processNoteOp user dbN opN).1.success = false →
      (processNoteOp user dbN opN).1.error =
          some "Note ID is required for update operation" ∨
      (processNoteOp user dbN opN).1.error =
          some "Version conflict - note was modified by another client") := by
  refine ⟨?_, ?_, ?_, ?_, ?_⟩
  · intro hop hid hne hv habs
    have hfil : dbB.rows.filter (bmOwned user idB) = [] := by
      rw [List.filter_eq_nil_iff]
      intro b hb
      have hnb := habs b hb
      by_cases hbid : b.id = idB
      · have hu : b.user_id ≠ user := fun hu => hnb ⟨hbid, hu⟩
        simp [bmOwned, hu]
      · simp [bmOwned, hbid]
    simp only [processBookmarkOp, hop, hid, hv, strFalsy]
    rw [if_neg (by simpa using hne)]
    simp only [Option.getD_some, hfil, List.map_nil]
  · intro hop hid hne hv habs
    have hfil : dbN.rows.filter (noteUpdateMatch user opN idN) = [] := by
      rw [List.filter_eq_nil_iff]
      intro n hn
      have hnn := habs n hn
      by_cases hnid : n.id = idN
      · have hu : n.user_id ≠ user := fun hu => hnn ⟨hnid, hu⟩
        simp [noteUpdateMatch, hu]
      · simp [noteUpdateMatch, hnid]
    simp only [processNoteOp, hop, hid, strFalsy]
    rw [if_neg (by simpa using hne)]
    simp only [Option.getD_some, hfil, List.map_nil]
  · intro hop
    simp only [processBookmarkOp, hop]
    by_cases hi : strFalsy opB.id = true
    · rw [if_pos hi]
      intro _
      exact Or.inl rfl
    · rw [if_neg hi]
      split
      · intro _
        exact Or.inr (Or.inr rfl)
      · split
        · intro hcontra
          cases hcontra
        · intro _
          exact Or.inr (Or.inl rfl)
  · intro hop hid hne v hv
    simp only [processBookmarkOp, hop, hid, hv, strFalsy]
    rw [if_neg (by simpa using hne)]
  · intro hop
    simp only [processNoteOp, hop]
    by_cases hi : strFalsy opN.id = true
    · rw [if_pos hi]
      intro _
      exact Or.inl rfl
    · rw [if_neg hi]
      split
      · intro hcontra
        cases hcontra
      · intro _
        exact Or.inr rfl

/-- C9 witness: a batch update of the nonexistent id "x" over the empty
store, with no version supplied, is recorded with the version-conflict
message in both processors; supplying a version on a bookmark update is
recorded with the store's undefined-column message. -/
theorem claim_C9_witness :
    (processBookmarkOp "u" 5 {} { operation := .update, id := some "x" }).1 =
      { success := false, operation := .update, id := some "x",
        error := some "Version conflict - bookmark was modified by another client" } ∧
    (processNoteOp "u" {} { operation := .update, id := some "x" }).1 =
      { success := false, operation := .update, id := some "x",
        error := some "Version conflict - note was modified by another client" } ∧
    processBookmarkOp "u" 5 {}
        { operation := .update, id := some "x", version := some 1 } =
      ({ success := false, operation := .update, id := some "x",
         error := some "column bookmarks.version does not exist" }, {}) :=
  ⟨(claim_C9 "u" 5 {} {} "x" "x" { operation := .update, id := some "x" }
      { operation := .update, id := some "x" }).1
    rfl rfl (by decide) rfl (by decide),
   (claim_C9 "u" 5 {} {} "x" "x" { operation := .update, id := some "x" }
      { operation := .update, id := some "x" }).2.1
    rfl rfl (by decide) rfl (by decide),
   (claim_C9 "u" 5 {} {} "x" "x"
      { operation := .update, id := some "x", version := some 1 }
      { operation := .update, id := some "x" }).2.2.2.1
    rfl rfl (by decide) 1 rfl⟩

/-- C10: a batch notes create item enforces no required field: with neither
title nor content supplied it is recorded as a success, inserting a
caller-owned row with title `""`, content `""`, tags null, is_favorite
false (and version at its database default 1) — while a batch bookmark
create without a url is recorded as a failure and leaves the store
untouched. -/
theorem claim_C10 (user : String) (now : Nat) (dbN : NotesDB)
    (dbB : BookmarksDB) :
    processNoteOp user dbN { operation := .create } =
      ({ success := true, operation := .create,
         id := some (genNoteId dbN.nextId),
         data := some ⟨genNoteId dbN.nextId, user, "", "", none, false, 1⟩ },
       { rows := dbN.rows ++ [⟨genNoteId dbN.nextId, user, "", "", none,
           false, 1⟩],
         nextId := dbN.nextId + 1 }) ∧
    processBookmarkOp user now dbB { operation := .create } =
      ({ success := false, operation := .create,
         error := some "URL is required for create operation" }, dbB) :=
  ⟨rfl, rfl⟩

